import Mathlib

/-!
Shallow embedding of the test-aci-auth-server request-handling core.

The source is a small Go program: a `serverHandler.ServeHTTP` method that
dispatches on the HTTP method, validates credentials according to the
configured auth mode (`none`, `basic`, `oauth`), and routes authenticated
GET requests either to the artifact builder (final path segment
`prog.aci`) or to a 404; a `getAuthPayload` helper that parses the
`Authorization` header; a `startServer` function that validates the mode
string; and a `loop` that multiplexes a shutdown channel and a diagnostic
message channel.

Modelling conventions:
- HTTP header values and Go strings are Lean `String`s; the byte slices
  produced by base64 decoding are `List Nat` (each entry a byte value),
  because Go converts them back to a (possibly non-UTF-8) string only to
  split on the byte `:` (58).
- The `Authorization` header is a single string; Go's `r.Header.Get`
  returns `""` when the header is absent, so `""` models absence.
- The two channels are modelled by recording, in the handler's result,
  the ordered list of diagnostic messages sent on `msg` and the number of
  signals sent on `stop`.
- Each diagnostic `fmt.Sprintf` in the source becomes one constructor of
  `Diag` carrying the data that parametrises the format string.
- `prepareACI` (the artifact builder, an external collaborator that
  shells out to `go build` and `actool`) is abstracted as the value
  `build : Except String Bytes` its single invocation would return; the
  handler result records whether it was invoked.
- The `panic("Woe is me!")` in the handler's auth switch is modelled by
  `serveHTTP` returning `none`.
-/

namespace AciAuthServer

/-- A byte slice, each entry a byte value (< 256 for well-formed data). -/
abbrev Bytes := List Nat

deriving instance DecidableEq for Except

/-- Go `httpError` struct: a status code and a message. -/
structure HttpErr where
  code : Nat
  message : String
  deriving Repr, DecidableEq

/-- One diagnostic message sent on the handler's `msg` channel; each
constructor corresponds to one `h.msg <- fmt.Sprintf(...)` in the source,
carrying the data that parametrises the format string. -/
inductive Diag where
  /-- `No "Authorization" header: %v` with the `httpError` message. -/
  | noAuthHeader (detail : String)
  /-- `Badly formed "Authorization" header` (base64 decode failed). -/
  | badlyFormed
  /-- `Badly formed "Authorization" header (2)` (colon split not 2 fields). -/
  | badlyFormedTwo
  /-- `Bad credentials: %q` with the decoded credential bytes. -/
  | badCreds (creds : Bytes)
  /-- `Bad token: %q` with the presented bearer token. -/
  | badToken (tok : String)
  /-- `Trying to serve %q` with `r.URL.String()`. -/
  | tryingToServe (url : String)
  /-- `  serving` -/
  | serving
  /-- `    failed (%v)` with the build error detail. -/
  | failed (err : String)
  /-- `    done.` -/
  | done
  /-- `  not found.` -/
  | notFound
  deriving Repr, DecidableEq

/-- The parts of an `*http.Request` the handler reads: the method, the
URL path (`r.URL.Path`), the full URL string (`r.URL.String()`, used in
the `Trying to serve` diagnostic), and the `Authorization` header value
(`""` when the header is absent, as Go's `Header.Get` returns). -/
structure Request where
  method : String
  path : String
  url : String
  authHeader : String
  deriving Repr, DecidableEq

/-- The observable outcome of one `ServeHTTP` call: the response status
and body, the diagnostics sent on `msg` in order, the number of signals
sent on `stop`, and whether `prepareACI` was invoked. A bare `w.Write`
without `WriteHeader` implies status 200 in Go. -/
structure HandlerResult where
  status : Nat
  body : Bytes
  msgs : List Diag
  stops : Nat
  builderInvoked : Bool
  deriving Repr, DecidableEq

/-! ### Base64 (Go `encoding/base64` StdEncoding decode) -/

/-- Value of one character of the standard base64 alphabet, `none` for a
character outside it (Go returns `CorruptInputError` there). -/
def b64Index (c : Char) : Option Nat :=
  if 'A' ≤ c ∧ c ≤ 'Z' then some (c.toNat - 65)
  else if 'a' ≤ c ∧ c ≤ 'z' then some (c.toNat - 97 + 26)
  else if '0' ≤ c ∧ c ≤ '9' then some (c.toNat - 48 + 52)
  else if c = '+' then some 62
  else if c = '/' then some 63
  else none

/-- Decode a list of base64 characters, four at a time, as Go's
`StdEncoding` does: the input length must be a multiple of four; `=`
padding may appear only in the last quantum, either as `xx==` (one byte)
or `xxx=` (two bytes). Go's `StdEncoding` does not check that the unused
trailing bits are zero (only `Strict` mode does), and neither do we. -/
def b64Quanta : List Char → Option Bytes
  | [] => some []
  | c0 :: c1 :: c2 :: c3 :: rest =>
    match b64Index c0, b64Index c1 with
    | some i0, some i1 =>
      if c2 = '=' then
        if c3 = '=' ∧ rest = [] then some [i0 * 4 + i1 / 16] else none
      else
        match b64Index c2 with
        | some i2 =>
          if c3 = '=' then
            if rest = [] then some [i0 * 4 + i1 / 16, (i1 % 16) * 16 + i2 / 4]
            else none
          else
            match b64Index c3, b64Quanta rest with
            | some i3, some bs =>
              some ([i0 * 4 + i1 / 16, (i1 % 16) * 16 + i2 / 4,
                     (i2 % 4) * 64 + i3] ++ bs)
            | _, _ => none
        | none => none
    | _, _ => none
  | _ :: _ => none

/-- Go `base64.StdEncoding.DecodeString`: newline characters (`\r`, `\n`)
are ignored, then the input is decoded in four-character quanta;
`none` models a non-nil `error`. -/
def base64DecodeString (s : String) : Option Bytes :=
  b64Quanta (s.toList.filter (fun c => c != '\r' && c != '\n'))

/-! ### Go `strings.Split` with a single-character separator -/

/-- Go `strings.Split` with a one-element separator, on any list of
tokens: splits around every occurrence of `sep`; the empty input yields
one empty field, `n` separators yield `n + 1` fields. -/
def goSplitOn [DecidableEq α] (sep : α) : List α → List (List α)
  | [] => [[]]
  | c :: cs =>
    let rest := goSplitOn sep cs
    if c = sep then [] :: rest
    else (c :: rest.headD []) :: rest.tail

/-- Go `strings.Split(s, sep)` for a single-character `sep` (the source
only splits on `" "` and `":"`, both single bytes, so the byte-level Go
split coincides with this character-level one on UTF-8 strings). -/
def goSplit (s : String) (sep : Char) : List String :=
  (goSplitOn sep s.toList).map (fun cs => ⟨cs⟩)

/-! ### `getAuthPayload` (source lines 228-253) -/

/-- Go `getAuthPayload(r, authType)`: reads the `Authorization` header;
`401 No auth` when absent, `400 Malformed auth` when not exactly two
space-separated tokens, `401 Wrong auth` when the scheme token differs
from `authType`, otherwise the payload token. -/
def getAuthPayload (r : Request) (authType : String) : Except HttpErr String :=
  let auth := r.authHeader
  if auth = "" then
    .error ⟨401, "No auth"⟩
  else
    let parts := goSplit auth ' '
    if parts.length ≠ 2 then
      .error ⟨400, "Malformed auth"⟩
    else if parts.getD 0 "" ≠ authType then
      .error ⟨401, "Wrong auth"⟩
    else
      .ok (parts.getD 1 "")

/-- UTF-8 bytes of the fixed username constant `"bar"`. -/
def barBytes : Bytes := [98, 97, 114]

/-- UTF-8 bytes of the fixed password constant `"baz"`. -/
def bazBytes : Bytes := [98, 97, 122]

/-- The auth switch of `ServeHTTP` (source lines 46-89) for a GET
request: `some (.ok ())` means the request is accepted and routing
proceeds; `some (.error (code, d))` means `w.WriteHeader(code)` is
called and the diagnostic `d` is sent; `none` models the
`panic("Woe is me!")` default branch. -/
def authCheck (auth : String) (r : Request) : Option (Except (Nat × Diag) Unit) :=
  if auth = "none" then
    some (.ok ())
  else if auth = "basic" then
    match getAuthPayload r "Basic" with
    | .error e => some (.error (e.code, .noAuthHeader e.message))
    | .ok payload =>
      match base64DecodeString payload with
      | none => some (.error (400, .badlyFormed))
      | some creds =>
        let parts := goSplitOn 58 creds
        if parts.length ≠ 2 then
          some (.error (400, .badlyFormedTwo))
        else
          let user := parts.getD 0 []
          let password := parts.getD 1 []
          if user ≠ barBytes ∨ password ≠ bazBytes then
            some (.error (401, .badCreds creds))
          else
            some (.ok ())
  else if auth = "oauth" then
    match getAuthPayload r "Bearer" with
    | .error e => some (.error (e.code, .noAuthHeader e.message))
    | .ok payload =>
      if payload ≠ "sometoken" then
        some (.error (401, .badToken payload))
      else
        some (.ok ())
  else
    none

/-! ### Routing (source lines 90-104) -/

/-- Go `filepath.Base` on a Unix path: `"."` for the empty path, strip
trailing slashes, then everything after the last remaining `/`; `"/"`
when the path consists only of slashes. -/
def filepathBase (path : String) : String :=
  if path = "" then "."
  else
    let stripped := (path.toList.reverse.dropWhile (fun c => c == '/')).reverse
    if stripped = [] then "/"
    else ⟨(stripped.reverse.takeWhile (fun c => c != '/')).reverse⟩

/-- The routing tail of `ServeHTTP` for an accepted GET: send the
`Trying to serve` diagnostic, then dispatch on the final path segment;
`prog.aci` invokes the builder (200 with its bytes, or 500 and a
`failed` diagnostic), anything else is 404 with a `not found.`
diagnostic. -/
def routeGet (build : Except String Bytes) (r : Request) : HandlerResult :=
  let m0 := Diag.tryingToServe r.url
  if filepathBase r.path = "prog.aci" then
    match build with
    | .error err => ⟨500, [], [m0, .serving, .failed err], 0, true⟩
    | .ok data => ⟨200, data, [m0, .serving, .done], 0, true⟩
  else
    ⟨404, [], [m0, .notFound], 0, false⟩

/-- Go `serverHandler.ServeHTTP` (source lines 34-105): POST answers 200
and sends one shutdown signal; any method other than GET and POST
answers 405; GET runs the auth switch and then routes. `none` models the
panic reached for an unrecognised auth mode. -/
def serveHTTP (auth : String) (build : Except String Bytes) (r : Request) :
    Option HandlerResult :=
  if r.method = "POST" then
    some ⟨200, [], [], 1, false⟩
  else if r.method ≠ "GET" then
    some ⟨405, [], [], 0, false⟩
  else
    match authCheck auth r with
    | none => none
    | some (.error (code, d)) => some ⟨code, [], [d], 0, false⟩
    | some (.ok _) => some (routeGet build r)

/-! ### Server startup mode validation (source lines 276-298) -/

/-- Go `startServer`'s list of valid mode strings: the source computes
`strings.Split("none, basic, oauth", ", ")`, a ground expression whose
value is the following three-element list. -/
def serverTypes : List String := ["none", "basic", "oauth"]

/-- The mode-string validation of Go `startServer`: the first argument
is matched against the elements of `serverTypes` (the Go loop keeps the
first element equal to `args[0]`, leaving `auth` empty otherwise); an
empty `auth` means the startup fails with an error before any handler
is constructed, modelled as `none`. -/
def startServerAuth (args : List String) : Option String :=
  match args with
  | [] => none
  | a0 :: _ =>
    let auth := (serverTypes.find? (fun v => v == a0)).getD ""
    if auth = "" then none else some auth

/-! ### The control loop (source lines 320-336) -/

/-- One event arriving at the `select` of Go `loop`: a shutdown signal
on `stopChan` or a diagnostic string on `msgChan`. -/
inductive LoopEvent where
  | stopSig
  | message (m : String)
  deriving Repr, DecidableEq

/-- The two states of the control loop. -/
inductive LoopState where
  | Running
  | Stopped
  deriving Repr, DecidableEq

/-- Go `loop` run on a linearised sequence of channel events: a shutdown
signal returns (state `Stopped`); a message is printed and the loop
continues; if the events run out without a shutdown signal the loop is
still blocked in `select`, state `Running`. Returns the final state and
the lines printed by the loop. -/
def loopRun : List LoopEvent → LoopState × List String
  | [] => (.Running, [])
  | .stopSig :: _ => (.Stopped, [])
  | .message m :: rest =>
    let res := loopRun rest
    (res.1, m :: res.2)

/-- Go `startServer` around the loop (source lines 320-323): run `loop`,
and once it returns (only on shutdown) print the farewell `Byebye`. -/
def startServerRun (evs : List LoopEvent) : LoopState × List String :=
  match loopRun evs with
  | (.Stopped, out) => (.Stopped, out ++ ["Byebye"])
  | (.Running, out) => (.Running, out)

/-! ### Spec-side verdicts (refinement targets)

These two definitions follow the words of the specification's
CredentialValidator contract, not the source; the claim theorems below
compare them with the source-derived `authCheck`. `some c` means
"reject with status `c`", `none` means "accept". -/

/-- Spec-side verdict for mode Basic, following the claim's words: 401
when the header is absent; 400 when not exactly two space-separated
tokens; 401 when the scheme is not `Basic`; 400 when the payload is not
valid base64; 400 when the decoded payload does not split on `:` into
exactly two fields; 401 when the pair is not exactly (bar, baz);
otherwise accept. -/
def specBasicVerdict (h : String) : Option Nat :=
  if h = "" then some 401
  else
    let parts := goSplit h ' '
    if parts.length ≠ 2 then some 400
    else if parts.getD 0 "" ≠ "Basic" then some 401
    else
      match base64DecodeString (parts.getD 1 "") with
      | none => some 400
      | some creds =>
        let fields := goSplitOn 58 creds
        if fields.length ≠ 2 then some 400
        else if fields.getD 0 [] ≠ barBytes ∨ fields.getD 1 [] ≠ bazBytes then
          some 401
        else none

/-- Spec-side verdict for mode OAuth, following the claim's words: 401
when the header is absent; 400 when not exactly two space-separated
tokens; 401 when the scheme is not `Bearer`; 401 when the token is not
exactly `sometoken`; otherwise accept. -/
def specOAuthVerdict (h : String) : Option Nat :=
  if h = "" then some 401
  else
    let parts := goSplit h ' '
    if parts.length ≠ 2 then some 400
    else if parts.getD 0 "" ≠ "Bearer" then some 401
    else if parts.getD 1 "" ≠ "sometoken" then some 401
    else none

/-! ## Refinement lemmas: the source auth switch against the spec verdicts -/

theorem authCheck_basic_verdict (r : Request) :
    (specBasicVerdict r.authHeader = none ∧
        authCheck "basic" r = some (Except.ok ())) ∨
    (∃ c d, specBasicVerdict r.authHeader = some c ∧
        authCheck "basic" r = some (Except.error (c, d))) := by
  by_cases h0 : r.authHeader = ""
  · right
    exact ⟨401, .noAuthHeader "No auth",
      by simp [specBasicVerdict, h0],
      by simp [authCheck, getAuthPayload, h0]⟩
  · by_cases h1 : (goSplit r.authHeader ' ').length = 2
    · obtain ⟨p0, p1, hp⟩ := List.length_eq_two.mp h1
      by_cases h2 : p0 = "Basic"
      · subst h2
        cases hb : base64DecodeString p1 with
        | none =>
          right
          refine ⟨400, .badlyFormed, ?_, ?_⟩
          · simp [specBasicVerdict, h0, hp, hb]
          · simp [authCheck, getAuthPayload, h0, hp, hb]
        | some creds =>
          by_cases h3 : (goSplitOn 58 creds).length = 2
          · obtain ⟨u, v, hf⟩ := List.length_eq_two.mp h3
            by_cases h4 : u = barBytes ∧ v = bazBytes
            · left
              obtain ⟨hu, hv⟩ := h4
              subst hu; subst hv
              constructor
              · simp [specBasicVerdict, h0, hp, hb, hf]
              · simp [authCheck, getAuthPayload, h0, hp, hb, hf]
            · right
              rw [not_and_or] at h4
              refine ⟨401, .badCreds creds, ?_, ?_⟩
              · rcases h4 with h4 | h4 <;>
                  simp [specBasicVerdict, h0, hp, hb, hf, h4]
              · rcases h4 with h4 | h4 <;>
                  simp [authCheck, getAuthPayload, h0, hp, hb, hf, h4]
          · right
            refine ⟨400, .badlyFormedTwo, ?_, ?_⟩
            · simp [specBasicVerdict, h0, hp, hb, h3]
            · simp [authCheck, getAuthPayload, h0, hp, hb, h3]
      · right
        refine ⟨401, .noAuthHeader "Wrong auth", ?_, ?_⟩
        · simp [specBasicVerdict, h0, hp, h2]
        · simp [authCheck, getAuthPayload, h0, hp, h2]
    · right
      refine ⟨400, .noAuthHeader "Malformed auth", ?_, ?_⟩
      · simp [specBasicVerdict, h0, h1]
      · simp [authCheck, getAuthPayload, h0, h1]

theorem authCheck_oauth_verdict (r : Request) :
    (specOAuthVerdict r.authHeader = none ∧
        authCheck "oauth" r = some (Except.ok ())) ∨
    (∃ c d, specOAuthVerdict r.authHeader = some c ∧
        authCheck "oauth" r = some (Except.error (c, d))) := by
  by_cases h0 : r.authHeader = ""
  · right
    exact ⟨401, .noAuthHeader "No auth",
      by simp [specOAuthVerdict, h0],
      by simp [authCheck, getAuthPayload, h0]⟩
  · by_cases h1 : (goSplit r.authHeader ' ').length = 2
    · obtain ⟨p0, p1, hp⟩ := List.length_eq_two.mp h1
      by_cases h2 : p0 = "Bearer"
      · subst h2
        by_cases h3 : p1 = "sometoken"
        · subst h3
          left
          constructor
          · simp [specOAuthVerdict, h0, hp]
          · simp [authCheck, getAuthPayload, h0, hp]
        · right
          refine ⟨401, .badToken p1, ?_, ?_⟩
          · simp [specOAuthVerdict, h0, hp, h3]
          · simp [authCheck, getAuthPayload, h0, hp, h3]
      · right
        refine ⟨401, .noAuthHeader "Wrong auth", ?_, ?_⟩
        · simp [specOAuthVerdict, h0, hp, h2]
        · simp [authCheck, getAuthPayload, h0, hp, h2]
    · right
      refine ⟨400, .noAuthHeader "Malformed auth", ?_, ?_⟩
      · simp [specOAuthVerdict, h0, h1]
      · simp [authCheck, getAuthPayload, h0, h1]


/-! ## Claim theorems -/

/-- **C1.** For every GET request handled in mode Basic, the validator's
result is determined exactly as the spec's cascade `specBasicVerdict`
prescribes: absent header 401; not exactly two space-separated tokens
400; scheme other than `Basic` 401; payload not valid base64 400;
decoded payload not exactly two `:`-separated fields 400; pair other
than ("bar", "baz") 401; otherwise the request is accepted and routing
proceeds. -/
theorem C1_basic_mode_verdict (build : Except String Bytes) (r : Request)
    (hm : r.method = "GET") :
    (∀ c, specBasicVerdict r.authHeader = some c →
        ∃ res, serveHTTP "basic" build r = some res ∧ res.status = c) ∧
    (specBasicVerdict r.authHeader = none →
        serveHTTP "basic" build r = some (routeGet build r)) := by
  have hv := authCheck_basic_verdict r
  constructor
  · intro c hc
    rcases hv with ⟨hnone, _⟩ | ⟨c', d, hc', hac⟩
    · rw [hnone] at hc
      cases hc
    · rw [hc'] at hc
      injection hc with hcc
      subst hcc
      exact ⟨⟨c', [], [d], 0, false⟩, by simp [serveHTTP, hm, hac], rfl⟩
  · intro hnone
    rcases hv with ⟨_, hac⟩ | ⟨c', d, hc', _⟩
    · simp [serveHTTP, hm, hac]
    · rw [hc'] at hnone
      cases hnone

/-- Witness for C1: in mode Basic a GET with no `Authorization` header
is answered 401, and a GET with `Basic <base64("bar:baz")>` is accepted
and routed. -/
theorem C1_witness :
    (∃ res, serveHTTP "basic" (Except.ok [7])
        ⟨"GET", "/x/prog.aci", "/x/prog.aci", ""⟩ = some res ∧
        res.status = 401) ∧
    serveHTTP "basic" (Except.ok [7])
        ⟨"GET", "/x/prog.aci", "/x/prog.aci", "Basic YmFyOmJheg=="⟩ =
      some (routeGet (Except.ok [7])
        ⟨"GET", "/x/prog.aci", "/x/prog.aci", "Basic YmFyOmJheg=="⟩) :=
  ⟨(C1_basic_mode_verdict (Except.ok [7])
      ⟨"GET", "/x/prog.aci", "/x/prog.aci", ""⟩ rfl).1 401 (by decide),
   (C1_basic_mode_verdict (Except.ok [7])
      ⟨"GET", "/x/prog.aci", "/x/prog.aci", "Basic YmFyOmJheg=="⟩ rfl).2
     (by decide)⟩

/-- **C2.** For every GET request handled in mode OAuth, the validator's
result is determined exactly as the spec's cascade `specOAuthVerdict`
prescribes: absent header 401; not exactly two space-separated tokens
400; scheme other than `Bearer` 401; token other than `sometoken` 401;
otherwise the request is accepted and routing proceeds. -/
theorem C2_oauth_mode_verdict (build : Except String Bytes) (r : Request)
    (hm : r.method = "GET") :
    (∀ c, specOAuthVerdict r.authHeader = some c →
        ∃ res, serveHTTP "oauth" build r = some res ∧ res.status = c) ∧
    (specOAuthVerdict r.authHeader = none →
        serveHTTP "oauth" build r = some (routeGet build r)) := by
  have hv := authCheck_oauth_verdict r
  constructor
  · intro c hc
    rcases hv with ⟨hnone, _⟩ | ⟨c', d, hc', hac⟩
    · rw [hnone] at hc
      cases hc
    · rw [hc'] at hc
      injection hc with hcc
      subst hcc
      exact ⟨⟨c', [], [d], 0, false⟩, by simp [serveHTTP, hm, hac], rfl⟩
  · intro hnone
    rcases hv with ⟨_, hac⟩ | ⟨c', d, hc', _⟩
    · simp [serveHTTP, hm, hac]
    · rw [hc'] at hnone
      cases hnone

/-- Witness for C2: in mode OAuth a GET with a one-token header is
answered 400, and a GET with `Bearer sometoken` is accepted and routed. -/
theorem C2_witness :
    (∃ res, serveHTTP "oauth" (Except.ok [7])
        ⟨"GET", "/x/prog.aci", "/x/prog.aci", "justonetoken"⟩ = some res ∧
        res.status = 400) ∧
    serveHTTP "oauth" (Except.ok [7])
        ⟨"GET", "/x/prog.aci", "/x/prog.aci", "Bearer sometoken"⟩ =
      some (routeGet (Except.ok [7])
        ⟨"GET", "/x/prog.aci", "/x/prog.aci", "Bearer sometoken"⟩) :=
  ⟨(C2_oauth_mode_verdict (Except.ok [7])
      ⟨"GET", "/x/prog.aci", "/x/prog.aci", "justonetoken"⟩ rfl).1 400
     (by decide),
   (C2_oauth_mode_verdict (Except.ok [7])
      ⟨"GET", "/x/prog.aci", "/x/prog.aci", "Bearer sometoken"⟩ rfl).2
     (by decide)⟩

/-- **C4.** Every POST request, regardless of path, headers and
configured auth mode, is answered 200 with an empty body and exactly one
shutdown signal, with no diagnostic message, no builder invocation, and
no credential or path evaluation (the result does not depend on the
mode, the header, or the path). -/
theorem C4_post_shutdown (auth : String) (build : Except String Bytes)
    (r : Request) (hm : r.method = "POST") :
    serveHTTP auth build r = some ⟨200, [], [], 1, false⟩ := by
  simp [serveHTTP, hm]

/-- Witness for C4: a POST under an unrecognised mode, a failing
builder, and a bogus header still answers 200 and signals shutdown
once. -/
theorem C4_witness :
    serveHTTP "garbage" (Except.error "boom")
        ⟨"POST", "/any/where", "/any/where", "Basic ???"⟩ =
      some ⟨200, [], [], 1, false⟩ :=
  C4_post_shutdown "garbage" (Except.error "boom")
    ⟨"POST", "/any/where", "/any/where", "Basic ???"⟩ rfl

/-- **C6.** The control loop is a two-state machine: a shutdown signal
moves it from Running to Stopped, after which the farewell line is
printed and nothing further is consumed; a diagnostic message is printed
and the loop stays Running; and the loop reaches Stopped exactly when a
shutdown signal occurs among the consumed events — it never terminates
without one. -/
theorem C6_control_loop :
    (∀ evs, startServerRun (LoopEvent.stopSig :: evs) =
        (LoopState.Stopped, ["Byebye"])) ∧
    (∀ m evs, loopRun (LoopEvent.message m :: evs) =
        ((loopRun evs).1, m :: (loopRun evs).2)) ∧
    (∀ evs, (loopRun evs).1 = LoopState.Stopped ↔ LoopEvent.stopSig ∈ evs) := by
  refine ⟨fun evs => rfl, fun m evs => rfl, fun evs => ?_⟩
  induction evs with
  | nil => simp [loopRun]
  | cons e rest ih =>
    cases e with
    | stopSig => simp [loopRun]
    | message m => simp [loopRun, ih]

/-- **C7.** In mode None credential validation accepts every GET request
regardless of its headers: the handler goes straight to routing; a GET
whose final path segment is `prog.aci` proceeds to artifact serving
(the builder is invoked), and a GET to any other path is answered 404
without invoking the builder. -/
theorem C7_mode_none (build : Except String Bytes) (r : Request)
    (hm : r.method = "GET") :
    serveHTTP "none" build r = some (routeGet build r) ∧
    (filepathBase r.path = "prog.aci" →
        (routeGet build r).builderInvoked = true) ∧
    (filepathBase r.path ≠ "prog.aci" →
        (routeGet build r).status = 404 ∧
        (routeGet build r).builderInvoked = false) := by
  refine ⟨by simp [serveHTTP, hm, authCheck], ?_, ?_⟩
  · intro h
    cases build <;> simp [routeGet, h]
  · intro h
    simp [routeGet, h]

/-- Witness for C7: with arbitrary credentials in mode None, a GET to
`/z/prog.aci` invokes the builder and a GET to `/z/other` is a 404. -/
theorem C7_witness :
    serveHTTP "none" (Except.ok [9])
        ⟨"GET", "/z/other", "/z/other", "Bearer junk"⟩ =
      some (routeGet (Except.ok [9])
        ⟨"GET", "/z/other", "/z/other", "Bearer junk"⟩) ∧
    (routeGet (Except.ok [9])
        ⟨"GET", "/z/other", "/z/other", "Bearer junk"⟩).status = 404 :=
  ⟨(C7_mode_none (Except.ok [9])
      ⟨"GET", "/z/other", "/z/other", "Bearer junk"⟩ rfl).1,
   ((C7_mode_none (Except.ok [9])
      ⟨"GET", "/z/other", "/z/other", "Bearer junk"⟩ rfl).2.2 (by decide)).1⟩

/-- **C8.** Every request whose method is neither GET nor POST is
answered 405 with an empty body, no diagnostic message, no shutdown
signal, and no builder invocation — the channels and all other
observable state are untouched. -/
theorem C8_method_not_allowed (auth : String) (build : Except String Bytes)
    (r : Request) (hg : r.method ≠ "GET") (hp : r.method ≠ "POST") :
    serveHTTP auth build r = some ⟨405, [], [], 0, false⟩ := by
  simp [serveHTTP, hp, hg]

/-- Witness for C8: a PUT request is answered 405 and touches nothing. -/
theorem C8_witness :
    serveHTTP "basic" (Except.ok [1]) ⟨"PUT", "/x", "/x", ""⟩ =
      some ⟨405, [], [], 0, false⟩ :=
  C8_method_not_allowed "basic" (Except.ok [1]) ⟨"PUT", "/x", "/x", ""⟩
    (by decide) (by decide)

/-- Counterexample to **C3** as stated: in mode None (authentication
passes trivially), a GET whose final path segment is `prog.aci` emits
three diagnostic lines — `Trying to serve`, then `serving`, then
`done.` — not the two the claim allows. -/
theorem C3_counterexample :
    serveHTTP "none" (Except.ok [1])
        ⟨"GET", "/x/prog.aci", "/x/prog.aci", ""⟩ =
      some ⟨200, [1],
        [Diag.tryingToServe "/x/prog.aci", Diag.serving, Diag.done], 0, true⟩ ∧
    [Diag.tryingToServe "/x/prog.aci", Diag.serving, Diag.done].length ≠ 2 := by
  constructor
  · decide
  · decide

/-- **C3 (amended).** For every processed GET request: a rejected
request emits exactly one diagnostic line (the rejection diagnostic);
an accepted request first emits a `Trying to serve` line and then either
a `not found.` line (two lines total) when the final path segment is not
`prog.aci`, or a `serving` line followed by `done.` or `failed` (three
lines total, in that order) when it is. -/
theorem C3_diagnostic_lines (auth : String) (build : Except String Bytes)
    (r : Request) (hm : r.method = "GET") :
    (∀ c d, authCheck auth r = some (Except.error (c, d)) →
        serveHTTP auth build r = some ⟨c, [], [d], 0, false⟩) ∧
    (authCheck auth r = some (Except.ok ()) →
        serveHTTP auth build r = some (routeGet build r) ∧
        ((filepathBase r.path ≠ "prog.aci" ∧
            (routeGet build r).msgs =
              [Diag.tryingToServe r.url, Diag.notFound]) ∨
         (filepathBase r.path = "prog.aci" ∧
            ((routeGet build r).msgs =
                [Diag.tryingToServe r.url, Diag.serving, Diag.done] ∨
             ∃ e, (routeGet build r).msgs =
                [Diag.tryingToServe r.url, Diag.serving, Diag.failed e])))) := by
  constructor
  · intro c d h
    simp [serveHTTP, hm, h]
  · intro h
    refine ⟨by simp [serveHTTP, hm, h], ?_⟩
    by_cases hb : filepathBase r.path = "prog.aci"
    · right
      refine ⟨hb, ?_⟩
      cases build with
      | ok data => left; simp [routeGet, hb]
      | error e => right; exact ⟨e, by simp [routeGet, hb]⟩
    · left
      exact ⟨hb, by simp [routeGet, hb]⟩

/-- Witness for the amended C3: a rejected Basic GET emits exactly its
one rejection line; an accepted GET in mode None is routed, where the
message lists are as described. -/
theorem C3_witness :
    serveHTTP "basic" (Except.ok [1]) ⟨"GET", "/q", "/q", ""⟩ =
      some ⟨401, [], [Diag.noAuthHeader "No auth"], 0, false⟩ ∧
    serveHTTP "none" (Except.ok [1]) ⟨"GET", "/q", "/q", ""⟩ =
      some (routeGet (Except.ok [1]) ⟨"GET", "/q", "/q", ""⟩) := by
  constructor
  · exact (C3_diagnostic_lines "basic" (Except.ok [1])
      ⟨"GET", "/q", "/q", ""⟩ rfl).1 401 (Diag.noAuthHeader "No auth")
      (by decide)
  · exact ((C3_diagnostic_lines "none" (Except.ok [1])
      ⟨"GET", "/q", "/q", ""⟩ rfl).2 (by decide)).1

/-- **C5.** For every authenticated GET whose final path segment is
`prog.aci`, the artifact builder is invoked; on success the response is
200 with exactly the returned bytes as body, on failure 500 with an
empty body, and the builder's error detail appears only in the `failed`
diagnostic line, never in the response body. -/
theorem C5_artifact_serving (auth : String) (build : Except String Bytes)
    (r : Request) (hm : r.method = "GET")
    (hauth : authCheck auth r = some (Except.ok ()))
    (hpath : filepathBase r.path = "prog.aci") :
    ∃ res, serveHTTP auth build r = some res ∧ res.builderInvoked = true ∧
      (∀ data, build = Except.ok data →
          res.status = 200 ∧ res.body = data ∧
          res.msgs = [Diag.tryingToServe r.url, Diag.serving, Diag.done]) ∧
      (∀ e, build = Except.error e →
          res.status = 500 ∧ res.body = [] ∧
          res.msgs = [Diag.tryingToServe r.url, Diag.serving, Diag.failed e]) := by
  refine ⟨routeGet build r, by simp [serveHTTP, hm, hauth], ?_, ?_, ?_⟩
  · cases build <;> simp [routeGet, hpath]
  · intro data hd
    subst hd
    simp [routeGet, hpath]
  · intro e he
    subst he
    simp [routeGet, hpath]

/-- Witness for C5: in mode None, a GET to `/a/prog.aci` with a failing
builder invokes it and answers 500 with an empty body. -/
theorem C5_witness :
    ∃ res, serveHTTP "none" (Except.error "no actool")
        ⟨"GET", "/a/prog.aci", "/a/prog.aci", ""⟩ = some res ∧
      res.builderInvoked = true ∧
      (∀ data, Except.error "no actool" = Except.ok data →
          res.status = 200 ∧ res.body = data ∧
          res.msgs = [Diag.tryingToServe "/a/prog.aci", Diag.serving,
            Diag.done]) ∧
      (∀ e, (Except.error "no actool" : Except String Bytes) = Except.error e →
          res.status = 500 ∧ res.body = [] ∧
          res.msgs = [Diag.tryingToServe "/a/prog.aci", Diag.serving,
            Diag.failed e]) :=
  C5_artifact_serving "none" (Except.error "no actool")
    ⟨"GET", "/a/prog.aci", "/a/prog.aci", ""⟩ rfl (by decide) (by decide)

theorem startServerAuth_cons (s : String) (rest : List String) :
    startServerAuth (s :: rest) =
      if s = "none" then some "none"
      else if s = "basic" then some "basic"
      else if s = "oauth" then some "oauth"
      else none := by
  by_cases h0 : s = "none"
  · subst h0; rfl
  by_cases h1 : s = "basic"
  · subst h1; rfl
  by_cases h2 : s = "oauth"
  · subst h2; rfl
  have hfind : serverTypes.find? (fun v => v == s) = none := by
    rw [List.find?_eq_none]
    intro x hx
    simp only [serverTypes, List.mem_cons, List.not_mem_nil, or_false] at hx
    rcases hx with rfl | rfl | rfl <;> simp [beq_iff_eq]
    · exact fun h => h0 h.symm
    · exact fun h => h1 h.symm
    · exact fun h => h2 h.symm
  rw [if_neg h0, if_neg h1, if_neg h2]
  simp [startServerAuth, hfind]

theorem authCheck_isSome (a : String)
    (ha : a = "none" ∨ a = "basic" ∨ a = "oauth") (r : Request) :
    (authCheck a r).isSome = true := by
  rcases ha with rfl | rfl | rfl
  · rfl
  · cases hgp : getAuthPayload r "Basic" with
    | error e => simp [authCheck, hgp]
    | ok p =>
      cases hb : base64DecodeString p with
      | none => simp [authCheck, hgp, hb]
      | some creds => simp [authCheck, hgp, hb, apply_ite Option.isSome]
  · cases hgp : getAuthPayload r "Bearer" with
    | error e => simp [authCheck, hgp]
    | ok p => simp [authCheck, hgp, apply_ite Option.isSome]

theorem serveHTTP_isSome (a : String)
    (ha : a = "none" ∨ a = "basic" ∨ a = "oauth")
    (build : Except String Bytes) (r : Request) :
    (serveHTTP a build r).isSome = true := by
  by_cases hp : r.method = "POST"
  · simp [serveHTTP, hp]
  by_cases hg : r.method = "GET"
  · have h := authCheck_isSome a ha r
    cases hac : authCheck a r with
    | none => rw [hac] at h; cases h
    | some v =>
      cases v with
      | error cd =>
        obtain ⟨c, d⟩ := cd
        simp [serveHTTP, hp, hg, hac]
      | ok u => simp [serveHTTP, hp, hg, hac]
  · simp [serveHTTP, hp, hg]

/-- **C9.** The handler's panic branch for an unrecognised auth mode is
unreachable: `startServer` accepts only the mode strings `none`, `basic`
and `oauth` (any other first argument fails before a handler is
constructed), and under every mode it accepts, neither the handler's
auth switch (`authCheck`) nor the handler itself (`serveHTTP`) ever
reaches the panic (modelled as `none`). -/
theorem C9_unreachable_panic :
    (∀ s rest, ¬(s = "none" ∨ s = "basic" ∨ s = "oauth") →
        startServerAuth (s :: rest) = none) ∧
    (∀ args a, startServerAuth args = some a →
        (∀ r, (authCheck a r).isSome = true) ∧
        (∀ (build : Except String Bytes) (r : Request),
          (serveHTTP a build r).isSome = true)) := by
  constructor
  · intro s rest h
    push_neg at h
    rw [startServerAuth_cons, if_neg h.1, if_neg h.2.1, if_neg h.2.2]
  · intro args a hsa
    match args with
    | [] => simp [startServerAuth] at hsa
    | s :: rest =>
      rw [startServerAuth_cons] at hsa
      have ha : a = "none" ∨ a = "basic" ∨ a = "oauth" := by
        by_cases h0 : s = "none"
        · rw [if_pos h0] at hsa
          exact Or.inl (Option.some.inj hsa).symm
        rw [if_neg h0] at hsa
        by_cases h1 : s = "basic"
        · rw [if_pos h1] at hsa
          exact Or.inr (Or.inl (Option.some.inj hsa).symm)
        rw [if_neg h1] at hsa
        by_cases h2 : s = "oauth"
        · rw [if_pos h2] at hsa
          exact Or.inr (Or.inr (Option.some.inj hsa).symm)
        rw [if_neg h2] at hsa
        cases hsa
      exact ⟨authCheck_isSome a ha, serveHTTP_isSome a ha⟩

/-- Witness for C9: the startup rejects the mode string `weird`, and
under the accepted mode `oauth` a concrete request is handled without
reaching the panic. -/
theorem C9_witness :
    startServerAuth ["weird"] = none ∧
    (serveHTTP "oauth" (Except.ok []) ⟨"GET", "/b", "/b", ""⟩).isSome = true :=
  ⟨C9_unreachable_panic.1 "weird" [] (by decide),
   (C9_unreachable_panic.2 ["oauth"] "oauth" (by decide)).2 (Except.ok [])
     ⟨"GET", "/b", "/b", ""⟩⟩

/-- **C10.** Authorization scheme matching is case-sensitive exact
string equality: a GET in mode Basic (resp. OAuth) whose header has
exactly two space-separated tokens but whose first token differs in any
way from `Basic` (resp. `Bearer`) — including only in letter case — is
answered 401 with the `Wrong auth` diagnostic, never accepted. -/
theorem C10_scheme_case_sensitive (build : Except String Bytes) (r : Request)
    (hm : r.method = "GET")
    (h2 : (goSplit r.authHeader ' ').length = 2) :
    ((goSplit r.authHeader ' ').getD 0 "" ≠ "Basic" →
        serveHTTP "basic" build r =
          some ⟨401, [], [Diag.noAuthHeader "Wrong auth"], 0, false⟩) ∧
    ((goSplit r.authHeader ' ').getD 0 "" ≠ "Bearer" →
        serveHTTP "oauth" build r =
          some ⟨401, [], [Diag.noAuthHeader "Wrong auth"], 0, false⟩) := by
  have hne : r.authHeader ≠ "" := by
    intro h
    rw [h] at h2
    exact absurd h2 (by decide)
  constructor
  · intro hs
    have hgp : getAuthPayload r "Basic" = .error ⟨401, "Wrong auth"⟩ := by
      simp only [getAuthPayload]
      rw [if_neg hne, if_neg (by simp [h2]), if_pos hs]
    simp [serveHTTP, hm, authCheck, hgp]
  · intro hs
    have hgp : getAuthPayload r "Bearer" = .error ⟨401, "Wrong auth"⟩ := by
      simp only [getAuthPayload]
      rw [if_neg hne, if_neg (by simp [h2]), if_pos hs]
    simp [serveHTTP, hm, authCheck, hgp]

/-- Witness for C10: the lowercase scheme `basic` (two tokens, valid
base64 payload for bar:baz) is rejected 401 by both modes. -/
theorem C10_witness :
    serveHTTP "basic" (Except.ok [3])
        ⟨"GET", "/x/prog.aci", "/x/prog.aci", "basic YmFyOmJheg=="⟩ =
      some ⟨401, [], [Diag.noAuthHeader "Wrong auth"], 0, false⟩ ∧
    serveHTTP "oauth" (Except.ok [3])
        ⟨"GET", "/x/prog.aci", "/x/prog.aci", "basic YmFyOmJheg=="⟩ =
      some ⟨401, [], [Diag.noAuthHeader "Wrong auth"], 0, false⟩ :=
  ⟨(C10_scheme_case_sensitive (Except.ok [3])
      ⟨"GET", "/x/prog.aci", "/x/prog.aci", "basic YmFyOmJheg=="⟩ rfl
      (by decide)).1 (by decide),
   (C10_scheme_case_sensitive (Except.ok [3])
      ⟨"GET", "/x/prog.aci", "/x/prog.aci", "basic YmFyOmJheg=="⟩ rfl
      (by decide)).2 (by decide)⟩

end AciAuthServer
